import Mathlib

/-!
Verification development for the valuation pipeline of the financial-tracker
repository (`src/calculate_portfolio.py`).

The pipeline is embedded shallowly:
* pandas cells are `Cell` (`na` models NaN / a missing value, `num` models the
  numeric scalars pandas produces for numeric CSV columns, `str` a string);
  Python float arithmetic on the values the pipeline manipulates is modelled
  by rational arithmetic, with the one IEEE artefact the code can produce —
  `value - cost_basis` when the cost basis is NaN — modelled by `Option ℚ`
  (`none` standing for NaN);
* the external quote provider (Alpha Vantage, reached through `requests.get`
  and `response.json()`) is an oracle `Oracle : String → String → ProviderResp`
  giving, per `(ticker, asset_type)` request, the outcome of the HTTP exchange;
* Python exceptions are the `Except PyExc` monad; an uncaught exception in the
  script is an `Except.error` outcome of the whole run;
* a dataframe is a `Table`: a list of column names plus one association list of
  cells per row (pandas keeps a cell for every column of the frame; a lookup of
  an absent key defaults to `na`, and `row.get` with an explicit default is
  modelled separately by `row_get_default`).

Numeric columns (`Quantity`, `Cost Basis`) are modelled on the fragment where
their cells are `na` or `num` — the cells `pd.read_csv` actually produces for
numeric data; a `str` cell there is mapped to `PyExc.typeError`, matching the
`TypeError` Python raises when such a value reaches the arithmetic.
-/

namespace Portfolio

/-- One pandas cell. `na` is NaN (a missing value), `num` a numeric scalar
(Python floats modelled by `ℚ`), `str` a string. -/
inductive Cell where
  | na : Cell
  | str : String → Cell
  | num : ℚ → Cell
deriving DecidableEq

/-- Models `pd.isna` on a single cell. -/
def Cell.isna : Cell → Bool
  | .na => true
  | _ => false

/-- Models Python `str(...)` on a cell value (`str(float('nan')) = "nan"`;
the rendering chosen for numeric cells is immaterial to every claim: it is
never a valid `YYYY-MM-DD` date and is only ever parsed as a date). -/
def Cell.asStr : Cell → String
  | .na => "nan"
  | .str s => s
  | .num q => toString q

/-- A Python exception escaping the script (or caught inside it). -/
inductive PyExc where
  | requestError : PyExc
  | jsonError : PyExc
  | valueError : PyExc
  | keyError : String → PyExc
  | typeError : PyExc
deriving DecidableEq

/-- Reading a numeric cell for arithmetic: NaN never reaches this point on the
paths the code takes (it is screened by `pd.isna` first), and a string raises
`TypeError` once it meets an arithmetic operator. -/
def Cell.toQE : Cell → Except PyExc ℚ
  | .num q => .ok q
  | _ => .error .typeError

/-- Reading the `Cost Basis` cell: NaN flows through the arithmetic as NaN
(modelled `none`), a number is used as-is, and a string raises `TypeError` at
its first arithmetic use. -/
def Cell.cbE : Cell → Except PyExc (Option ℚ)
  | .na => .ok none
  | .num q => .ok (some q)
  | .str _ => .error .typeError

/-- Python `cost_basis > 0`: `NaN > 0` is `False`. -/
def cbPos : Option ℚ → Bool
  | some c => decide (0 < c)
  | none => false

/-- Outcome of one HTTP exchange with the quote provider, as seen from
`get_price` (`src/calculate_portfolio.py:45-55`):
* `netError`: `requests.get` itself raises (network failure);
* `notJson`: the body is not valid JSON, so `response.json()` raises;
* `missingFld`: the JSON parses but the expected price field path
  (`"Global Quote"/"05. price"` resp. `"Realtime Currency Exchange Rate"/
  "5. Exchange Rate"`) is absent, so the lookup raises `KeyError`;
* `badFloat`: the field is present but `float()` cannot parse it;
* `price q`: the field is present and parses to the number `q`. -/
inductive ProviderResp where
  | netError : ProviderResp
  | notJson : ProviderResp
  | missingFld : ProviderResp
  | badFloat : ProviderResp
  | price : ℚ → ProviderResp
deriving DecidableEq

/-- The mocked provider: the response obtained for a `(ticker, asset_type)`
request. (The concrete request parameters — `GLOBAL_QUOTE` vs
`CURRENCY_EXCHANGE_RATE`, the upper-casing of a crypto ticker, the API key —
only shape the HTTP query; the oracle abstracts the whole exchange.) -/
def Oracle : Type := String → String → ProviderResp

/-- `get_price` (`src/calculate_portfolio.py:11-55`). Cash-like asset types
return `1` before any request is built; an unrecognised asset type prints a
message and returns `None` (modelled `.ok none`); otherwise the request is
made and: a network failure or a non-JSON body raises (the `try` block starts
only after `response.json()`), a missing price field raises `KeyError` which
IS caught and becomes `0`, an unparseable price raises `ValueError` which is
not caught, and a good price is returned. -/
def get_price (ticker asset_type : String) (oracle : Oracle) :
    Except PyExc (Option ℚ) :=
  if asset_type ∈ ["cash", "401k", "hsa", "espp"] then
    .ok (some 1)
  else if asset_type ∈ ["stock", "etf"] ∨ asset_type = "crypto" then
    match oracle ticker asset_type with
    | .netError => .error .requestError
    | .notJson => .error .jsonError
    | .missingFld => .ok (some 0)
    | .badFloat => .error .valueError
    | .price q => .ok (some q)
  else
    .ok none

/-- Whether `get_price` reaches the `requests.get` call on line 45 for a given
asset type (the control flow of `src/calculate_portfolio.py:22-45`): cash-like
types return at line 23, unsupported types return at line 43, and only
stock/etf/crypto fall through to the request. -/
def get_price_makes_request (asset_type : String) : Bool :=
  if asset_type ∈ ["cash", "401k", "hsa", "espp"] then false
  else if asset_type ∈ ["stock", "etf"] then true
  else if asset_type = "crypto" then true
  else false

/-- The four per-row figures computed by `calculate_portfolio`
(`src/calculate_portfolio.py:94-109`). `gain = none` models the NaN that
`value - cost_basis` produces when the cost basis cell is NaN. -/
structure Stats where
  price : ℚ
  value : ℚ
  gain : Option ℚ
  pct : ℚ
deriving DecidableEq

/-- Lines 94-109 of `src/calculate_portfolio.py`: dispatch on the (already
lower-cased) asset type and compute price, value, gain/loss and percentage
gain/loss. `.ok none` is the `price is None` case of line 104: an unsupported
asset type, which the caller skips. The `Cost Basis` cell is only read (via
`Cell.cbE`) in the branches where the code actually uses it, and for the
quoted branch only after `get_price`, preserving the order in which the
original raises. -/
def row_stats (ticker asset_type : String) (quantity : ℚ) (cost_basis : Cell)
    (oracle : Oracle) : Except PyExc (Option Stats) :=
  if asset_type = "cash" then
    .ok (some ⟨1, quantity, some 0, 0⟩)
  else if asset_type = "401k" ∨ asset_type = "hsa" then do
    let value : ℚ := 1 * quantity
    let cb ← cost_basis.cbE
    let gain : Option ℚ := cb.map (fun c => value - c)
    let pct : ℚ :=
      match cb with
      | some c => if 0 < c then ((value - c) / c) * 100 else 100
      | none => 100
    .ok (some ⟨1, value, gain, pct⟩)
  else do
    match ← get_price ticker asset_type oracle with
    | none => .ok none
    | some price => do
      let value : ℚ := price * quantity
      let cb ← cost_basis.cbE
      let gain : ℚ :=
        match cb with
        | some c => if 0 < c then value - c * quantity else value
        | none => value
      let pct : ℚ :=
        match cb with
        | some c => if 0 < c then (gain / (c * quantity)) * 100 else 100
        | none => 100
      .ok (some ⟨price, value, some gain, pct⟩)

/-! ### Dates and the hold-period classification

`datetime.strptime(s, "%Y-%m-%d")` accepts exactly: four (ASCII) digits, a
dash, one or two digits giving a month in 1..12, a dash, one or two digits
giving a day that the `datetime` constructor accepts (1 .. length of the
month, proleptic Gregorian, year ≥ 1), with nothing left over; anything else
raises `ValueError`.  `(datetime.now() - d).days` equals the difference of
the civil day numbers of "now"'s date and `d`, whatever the time of day
(the timedelta's fractional part is now's time of day, in `[0, 1)` days, so
flooring to whole days leaves exactly the date difference). -/

/-- `LONG_TERM_HOLD_YEARS` from `src/utils.py`. -/
def LONG_TERM_HOLD_YEARS : ℚ := 2

/-- A proleptic-Gregorian civil date (`datetime.date`; year ≥ 1 for the dates
`datetime` accepts). -/
structure Date where
  year : Nat
  month : Nat
  day : Nat
deriving DecidableEq

/-- Gregorian leap year. -/
def is_leap (y : Nat) : Bool :=
  y % 4 = 0 && (y % 100 != 0 || y % 400 = 0)

/-- Length of month `m` of year `y`. -/
def days_in_month (y m : Nat) : Nat :=
  if m = 2 then (if is_leap y then 29 else 28)
  else if m = 4 ∨ m = 6 ∨ m = 9 ∨ m = 11 then 30
  else 31

/-- Days in year `y` strictly before month `m`. -/
def days_before_month (y m : Nat) : Nat :=
  (List.range (m - 1)).foldl (fun a i => a + days_in_month y (i + 1)) 0

/-- Civil day number (proleptic Gregorian, day 1 = 0001-01-01), so that a
`timedelta.days` between two dates is the difference of their ordinals — the
quantity `(datetime.now() - purchase_date_obj).days` computes. -/
def to_ordinal (d : Date) : Int :=
  365 * ((d.year : Int) - 1) + ((d.year : Int) - 1) / 4
    - ((d.year : Int) - 1) / 100 + ((d.year : Int) - 1) / 400
    + (days_before_month d.year d.month : Int) + (d.day : Int)

/-- Splits a character list at every `'-'` (the shape `"%Y-%m-%d"` imposes). -/
def split_dashes : List Char → List (List Char)
  | [] => [[]]
  | ch :: rest =>
    let r := split_dashes rest
    if ch = '-' then [] :: r
    else
      match r with
      | g :: gs => (ch :: g) :: gs
      | [] => [[ch]]

/-- Digits to a number (callers guarantee every character is an ASCII digit). -/
def digits_to_nat (l : List Char) : Nat :=
  l.foldl (fun a ch => a * 10 + (ch.toNat - 48)) 0

/-- Models `datetime.strptime(s, "%Y-%m-%d")`: `none` is the `ValueError` the
code catches. Exactly three dash-separated groups; the year exactly four
digits, month and day one or two digits; month in 1..12, day in
1..`days_in_month` (the constructor check), year ≥ 1. -/
def parse_date (s : String) : Option Date :=
  match split_dashes s.toList with
  | [ys, ms, ds] =>
    if ys.length = 4 && ys.all Char.isDigit
        && (ms.length = 1 || ms.length = 2) && ms.all Char.isDigit
        && (ds.length = 1 || ds.length = 2) && ds.all Char.isDigit then
      let y := digits_to_nat ys
      let m := digits_to_nat ms
      let d := digits_to_nat ds
      if 1 ≤ y && 1 ≤ m && m ≤ 12 && 1 ≤ d && d ≤ days_in_month y m then
        some ⟨y, m, d⟩
      else none
    else none
  | _ => none

/-- Lines 113-122 of `src/calculate_portfolio.py`: the hold-period
classification of one row given the `Purchase Date` cell and today's civil
date. The code's labels: `"Green"` is the spec's `LongTerm`, `"Red"` is
`ShortTerm`, `"Invalid Date"` is `InvalidDate`, `"No Date"` is `NoDate`. -/
def classify_hold (purchase_date : Cell) (today : Date) : String :=
  if purchase_date.isna = false then
    match parse_date purchase_date.asStr with
    | some d =>
      if ((to_ordinal today - to_ordinal d : Int) : ℚ) / 365 >
          LONG_TERM_HOLD_YEARS then "Green" else "Red"
    | none => "Invalid Date"
  else "No Date"

/-! ### Rows, tables and the pipeline driver -/

/-- One dataframe row: column name to cell, in column order. -/
abbrev Row : Type := List (String × Cell)

/-- Cell of column `c` in a row (pandas keeps a cell for every frame column;
an absent key defaults to NaN). -/
def getCell : Row → String → Cell
  | [], _ => .na
  | p :: r, c => if p.1 = c then p.2 else getCell r c

/-- `portfolio.at[index, c] = v` on one row: replace the cell in place if the
column exists, else append the new column at the end (pandas puts a fresh
column last). -/
def setCell : Row → String → Cell → Row
  | [], c, v => [(c, v)]
  | p :: r, c, v => if p.1 = c then (c, v) :: r else p :: setCell r c v

/-- A dataframe: its column names and its rows. -/
structure Table where
  cols : List String
  rows : List Row
deriving DecidableEq

/-- `row[c]`: raises `KeyError` when `c` is not a column of the frame. -/
def col_get (cols : List String) (row : Row) (c : String) : Except PyExc Cell :=
  if c ∈ cols then .ok (getCell row c) else .error (.keyError c)

/-- `row.get(c, dflt)`: the cell when the column exists, else the default. -/
def row_get_default (cols : List String) (row : Row) (c : String) (dflt : Cell) :
    Cell :=
  if c ∈ cols then getCell row c else dflt

/-- `portfolio[c] = f(portfolio[c])` column rewrite (lines 73-74): raises
`KeyError` when the column is absent, else maps every row's cell. -/
def map_col (t : Table) (c : String) (f : Cell → Cell) : Except PyExc Table :=
  if c ∈ t.cols then
    .ok ⟨t.cols, t.rows.map (fun r => setCell r c (f (getCell r c)))⟩
  else .error (.keyError c)

/-- `portfolio[c] = v` with a constant (lines 75-79): creates or overwrites
the column, setting every row's cell to `v`. -/
def set_col_const (t : Table) (c : String) (v : Cell) : Table :=
  ⟨if c ∈ t.cols then t.cols else t.cols ++ [c],
   t.rows.map (fun r => setCell r c v)⟩

/-- Character-wise lower-casing, modelling Python's `str.lower` on the ASCII
range the asset-type and liquidity labels use. -/
def str_lower (s : String) : String :=
  ⟨s.data.map Char.toLower⟩

/-- The transform of lines 73-74: `.fillna('').astype(str).str.lower()`. -/
def fill_str_lower (c : Cell) : Cell :=
  .str (match c with
    | .na => ""
    | .str s => str_lower s
    | .num q => str_lower (toString q))

/-- What one loop iteration (lines 83-129) decides to do with its row:
`error` is an uncaught exception, `ok none` is a `continue` (the row is
skipped and left as initialised), `ok (some (s, hold))` are the five figures
to write back. -/
def row_decision (cols : List String) (oracle : Oracle) (today : Date)
    (row : Row) : Except PyExc (Option (Stats × String)) := do
  let ticker ← col_get cols row "Ticker"
  let asset_type ← col_get cols row "Type"
  let quantity ← col_get cols row "Quantity"
  let cost_basis := row_get_default cols row "Cost Basis" (.num 0)
  let purchase_date := row_get_default cols row "Purchase Date" (.str "")
  if ticker.isna || asset_type.isna || quantity.isna then
    .ok none
  else do
    let q ← quantity.toQE
    match ← row_stats ticker.asStr asset_type.asStr q cost_basis oracle with
    | none => .ok none
    | some s => .ok (some (s, classify_hold purchase_date today))

/-- Lines 125-129: write the five computed cells back into the row. -/
def update_row (row : Row) (s : Stats) (hold : String) : Row :=
  setCell (setCell (setCell (setCell (setCell row
    "Current Price" (.num s.price))
    "Value" (.num s.value))
    "Gain/Loss" (match s.gain with | some g => .num g | none => .na))
    "% Gain/Loss" (.num s.pct))
    "Long-Term Hold" (.str hold)

/-- One iteration of the loop of lines 83-129 acting on a row and the running
total: a skipped row is left unchanged (it keeps the initialised default
cells) and contributes nothing to the total. -/
def process_row (cols : List String) (oracle : Oracle) (today : Date)
    (row : Row) (total : ℚ) : Except PyExc (Row × ℚ) :=
  match row_decision cols oracle today row with
  | .error e => .error e
  | .ok none => .ok (row, total)
  | .ok (some (s, hold)) => .ok (update_row row s hold, total + s.value)

/-- The whole loop: rows in input order, threading `total_value`. -/
def process_rows (cols : List String) (oracle : Oracle) (today : Date) :
    List Row → ℚ → Except PyExc (List Row × ℚ)
  | [], total => .ok ([], total)
  | r :: rs, total => do
    let (r', total') ← process_row cols oracle today r total
    let (rs', total'') ← process_rows cols oracle today rs total'
    .ok (r' :: rs', total'')

/-- The five output columns the loop writes (initialised on lines 75-79,
written on lines 125-129). -/
def enrich_cols : List String :=
  ["Current Price", "Value", "Gain/Loss", "% Gain/Loss", "Long-Term Hold"]

/-- The initialisation of lines 75-79 seen from a single row: the five result
cells set to their defaults (`0`, `0`, `0`, `0`, `''`), overwriting a
homonymous input column in place or appending a fresh one at the end. -/
def init_row (r : Row) : Row :=
  setCell (setCell (setCell (setCell (setCell r
    "Current Price" (.num 0)) "Value" (.num 0)) "Gain/Loss" (.num 0))
    "% Gain/Loss" (.num 0)) "Long-Term Hold" (.str "")

/-- The initialisation of lines 75-79 on the whole frame. -/
def init_table (t : Table) : Table :=
  set_col_const (set_col_const (set_col_const (set_col_const
    (set_col_const t "Current Price" (.num 0)) "Value" (.num 0))
    "Gain/Loss" (.num 0)) "% Gain/Loss" (.num 0)) "Long-Term Hold" (.str "")

/-- Numeric content of a row's `Value` cell (`0` when it is not numeric). -/
def row_value (r : Row) : ℚ :=
  match getCell r "Value" with
  | .num q => q
  | _ => 0

/-- Row `i` of a row list, the empty row past the end. -/
def rowsGet (rows : List Row) (i : Nat) : Row :=
  rows.getD i []

/-- Outcome of one run of `calculate_portfolio`: the early return on an empty
frame (a printed diagnostic, no file written), or a written output file
together with the final value of the internal `total_value` accumulator
(which the script never writes anywhere). -/
inductive RunResult where
  | emptyAbort : RunResult
  | written : Table → ℚ → RunResult
deriving DecidableEq

/-- `calculate_portfolio` (`src/calculate_portfolio.py:57-133`) on an
already-parsed input frame: empty check, the `Type` and `Liquidity` column
rewrites, initialisation of the five result columns, the row loop, and the
final `to_csv`. -/
def calculate_portfolio (input : Table) (oracle : Oracle) (today : Date) :
    Except PyExc RunResult := do
  if input.rows.isEmpty then
    .ok .emptyAbort
  else do
    let t1 ← map_col input "Type" fill_str_lower
    let t2 ← map_col t1 "Liquidity" fill_str_lower
    let t3 := init_table t2
    let (rows', total) ← process_rows t3.cols oracle today t3.rows 0
    .ok (.written ⟨t3.cols, rows'⟩ total)

/-! ### Concrete fixtures for the claim instances below -/

/-- The input columns of the documented interface. -/
def std_cols : List String :=
  ["Ticker", "Type", "Quantity", "Cost Basis", "Purchase Date", "Liquidity"]

/-- A row of the documented input shape. -/
def mk_row (tk ty : String) (qt cb pd lq : Cell) : Row :=
  [("Ticker", .str tk), ("Type", .str ty), ("Quantity", qt),
   ("Cost Basis", cb), ("Purchase Date", pd), ("Liquidity", lq)]

/-- A fixed observation date for the concrete runs below. -/
def d0 : Date := ⟨2026, 10, 12⟩

/-- An oracle answering every provider request with a network failure. -/
def net_fail : Oracle := fun _ _ => .netError

/-- One stock holding; used with `net_fail` to exercise the provider-failure
path of the run. -/
def C1_input : Table :=
  ⟨std_cols, [mk_row "AAPL" "stock" (.num 2) (.num 0) .na (.str "high")]⟩

/-- A cash holding in a file that has no `Purchase Date` column at all. -/
def C4_input : Table :=
  ⟨["Ticker", "Type", "Quantity", "Liquidity"],
   [[("Ticker", .str "USD"), ("Type", .str "cash"), ("Quantity", .num 3),
     ("Liquidity", .str "high")]]⟩

/-- A valid cash row followed by a row with a missing `Quantity`. -/
def C5_input : Table :=
  ⟨std_cols,
   [mk_row "USD" "cash" (.num 3) .na .na (.str "high"),
    mk_row "AAPL" "stock" .na (.num 100) (.str "2024-01-05") (.str "low")]⟩

/-- Two cash holdings of quantity 3 and 4, so the accumulated total is 7, a
number appearing in no cell of the produced file. -/
def C6_input : Table :=
  ⟨std_cols,
   [mk_row "USD" "cash" (.num 3) .na .na (.str "high"),
    mk_row "EUR" "cash" (.num 4) .na .na (.str "high")]⟩

/-- A file with headers but zero data rows. -/
def empty_input : Table := ⟨std_cols, []⟩

/-- A non-empty file lacking the `Liquidity` column. -/
def C7_input : Table :=
  ⟨["Ticker", "Type", "Quantity"],
   [[("Ticker", .str "USD"), ("Type", .str "cash"), ("Quantity", .num 1)]]⟩

/-- A non-empty file with every documented column except `Liquidity`. -/
def C9_input : Table :=
  ⟨["Ticker", "Type", "Quantity", "Cost Basis", "Purchase Date"],
   [[("Ticker", .str "VTI"), ("Type", .str "etf"), ("Quantity", .num 1),
     ("Cost Basis", .num 0), ("Purchase Date", .na)]]⟩

/-- An input that already carries a column named `Value` (42 for its one
row), homonymous with a result column. -/
def C10_input : Table :=
  ⟨["Ticker", "Type", "Quantity", "Cost Basis", "Purchase Date", "Liquidity",
    "Value"],
   [[("Ticker", .str "USD"), ("Type", .str "cash"), ("Quantity", .num 2),
     ("Cost Basis", .na), ("Purchase Date", .na), ("Liquidity", .str "high"),
     ("Value", .num 42)]]⟩

/-- The file the `C4_input` run writes. -/
def C4_output : Table :=
  ⟨["Ticker", "Type", "Quantity", "Liquidity", "Current Price", "Value",
    "Gain/Loss", "% Gain/Loss", "Long-Term Hold"],
   [[("Ticker", .str "USD"), ("Type", .str "cash"), ("Quantity", .num 3),
     ("Liquidity", .str "high"), ("Current Price", .num 1), ("Value", .num 3),
     ("Gain/Loss", .num 0), ("% Gain/Loss", .num 0),
     ("Long-Term Hold", .str "Invalid Date")]]⟩

/-- The file the `C5_input` run writes: the skipped row is still there, with
the initialised default cells. -/
def C5_output : Table :=
  ⟨["Ticker", "Type", "Quantity", "Cost Basis", "Purchase Date", "Liquidity",
    "Current Price", "Value", "Gain/Loss", "% Gain/Loss", "Long-Term Hold"],
   [[("Ticker", .str "USD"), ("Type", .str "cash"), ("Quantity", .num 3),
     ("Cost Basis", .na), ("Purchase Date", .na), ("Liquidity", .str "high"),
     ("Current Price", .num 1), ("Value", .num 3), ("Gain/Loss", .num 0),
     ("% Gain/Loss", .num 0), ("Long-Term Hold", .str "No Date")],
    [("Ticker", .str "AAPL"), ("Type", .str "stock"), ("Quantity", .na),
     ("Cost Basis", .num 100), ("Purchase Date", .str "2024-01-05"),
     ("Liquidity", .str "low"), ("Current Price", .num 0), ("Value", .num 0),
     ("Gain/Loss", .num 0), ("% Gain/Loss", .num 0),
     ("Long-Term Hold", .str "")]]⟩

/-- The file the `C6_input` run writes: the accumulated total 7 appears in no
cell of it (and in no column name). -/
def C6_output : Table :=
  ⟨["Ticker", "Type", "Quantity", "Cost Basis", "Purchase Date", "Liquidity",
    "Current Price", "Value", "Gain/Loss", "% Gain/Loss", "Long-Term Hold"],
   [[("Ticker", .str "USD"), ("Type", .str "cash"), ("Quantity", .num 3),
     ("Cost Basis", .na), ("Purchase Date", .na), ("Liquidity", .str "high"),
     ("Current Price", .num 1), ("Value", .num 3), ("Gain/Loss", .num 0),
     ("% Gain/Loss", .num 0), ("Long-Term Hold", .str "No Date")],
    [("Ticker", .str "EUR"), ("Type", .str "cash"), ("Quantity", .num 4),
     ("Cost Basis", .na), ("Purchase Date", .na), ("Liquidity", .str "high"),
     ("Current Price", .num 1), ("Value", .num 4), ("Gain/Loss", .num 0),
     ("% Gain/Loss", .num 0), ("Long-Term Hold", .str "No Date")]]⟩

/-- The file the `C10_input` run writes: the input's own `Value` column was
overwritten (42 became 2) in place. -/
def C10_output : Table :=
  ⟨["Ticker", "Type", "Quantity", "Cost Basis", "Purchase Date", "Liquidity",
    "Value", "Current Price", "Gain/Loss", "% Gain/Loss", "Long-Term Hold"],
   [[("Ticker", .str "USD"), ("Type", .str "cash"), ("Quantity", .num 2),
     ("Cost Basis", .na), ("Purchase Date", .na), ("Liquidity", .str "high"),
     ("Value", .num 2), ("Current Price", .num 1), ("Gain/Loss", .num 0),
     ("% Gain/Loss", .num 0), ("Long-Term Hold", .str "No Date")]]⟩

/-! ### Helper lemmas -/

theorem getCell_setCell_self (r : Row) (c : String) (v : Cell) :
    getCell (setCell r c v) c = v := by
  induction r with
  | nil => simp [setCell, getCell]
  | cons p r ih =>
    by_cases h : p.1 = c
    · simp [setCell, getCell, h]
    · simp [setCell, getCell, h, ih]

theorem getCell_setCell_ne (r : Row) (c c' : String) (v : Cell) (h : c' ≠ c) :
    getCell (setCell r c v) c' = getCell r c' := by
  induction r with
  | nil => simp [setCell, getCell, Ne.symm h]
  | cons p r ih =>
    by_cases hp : p.1 = c
    · simp [setCell, getCell, hp, Ne.symm h]
    · simp [setCell, getCell, hp, ih]

theorem getCell_update_row_of_not_mem (row : Row) (s : Stats) (hold : String)
    {c : String} (h : c ∉ enrich_cols) :
    getCell (update_row row s hold) c = getCell row c := by
  simp only [enrich_cols, List.mem_cons, List.not_mem_nil, or_false, not_or] at h
  obtain ⟨h1, h2, h3, h4, h5⟩ := h
  unfold update_row
  rw [getCell_setCell_ne _ _ _ _ h5, getCell_setCell_ne _ _ _ _ h4,
    getCell_setCell_ne _ _ _ _ h3, getCell_setCell_ne _ _ _ _ h2,
    getCell_setCell_ne _ _ _ _ h1]

theorem getCell_update_row_value (row : Row) (s : Stats) (hold : String) :
    getCell (update_row row s hold) "Value" = .num s.value := by
  unfold update_row
  rw [getCell_setCell_ne _ _ _ _ (by decide), getCell_setCell_ne _ _ _ _ (by decide),
    getCell_setCell_ne _ _ _ _ (by decide), getCell_setCell_self]

theorem getCell_init_row_of_not_mem (r : Row) {c : String}
    (h : c ∉ enrich_cols) :
    getCell (init_row r) c = getCell r c := by
  simp only [enrich_cols, List.mem_cons, List.not_mem_nil, or_false, not_or] at h
  obtain ⟨h1, h2, h3, h4, h5⟩ := h
  unfold init_row
  rw [getCell_setCell_ne _ _ _ _ h5, getCell_setCell_ne _ _ _ _ h4,
    getCell_setCell_ne _ _ _ _ h3, getCell_setCell_ne _ _ _ _ h2,
    getCell_setCell_ne _ _ _ _ h1]

theorem getCell_init_row_value (r : Row) :
    getCell (init_row r) "Value" = .num 0 := by
  unfold init_row
  rw [getCell_setCell_ne _ _ _ _ (by decide), getCell_setCell_ne _ _ _ _ (by decide),
    getCell_setCell_ne _ _ _ _ (by decide), getCell_setCell_self]

theorem row_value_init_row (r : Row) : row_value (init_row r) = 0 := by
  simp [row_value, getCell_init_row_value]

theorem process_row_cases {cols : List String} {oracle : Oracle} {today : Date}
    {row r' : Row} {tot tot' : ℚ}
    (h : process_row cols oracle today row tot = .ok (r', tot')) :
    (r' = row ∧ tot' = tot) ∨
    ∃ s hold, r' = update_row row s hold ∧ tot' = tot + s.value := by
  unfold process_row at h
  cases hd : row_decision cols oracle today row with
  | error e => rw [hd] at h; exact absurd h (by simp)
  | ok x =>
    rw [hd] at h
    cases x with
    | none =>
      simp only [Except.ok.injEq, Prod.mk.injEq] at h
      exact .inl ⟨h.1.symm, h.2.symm⟩
    | some p =>
      simp only [Except.ok.injEq, Prod.mk.injEq] at h
      exact .inr ⟨p.1, p.2, h.1.symm, h.2.symm⟩

theorem process_row_frame {cols : List String} {oracle : Oracle} {today : Date}
    {row r' : Row} {tot tot' : ℚ}
    (h : process_row cols oracle today row tot = .ok (r', tot'))
    {c : String} (hc : c ∉ enrich_cols) :
    getCell r' c = getCell row c := by
  rcases process_row_cases h with ⟨rfl, -⟩ | ⟨s, hold, rfl, -⟩
  · rfl
  · exact getCell_update_row_of_not_mem row s hold hc

theorem process_row_total {cols : List String} {oracle : Oracle} {today : Date}
    {row r' : Row} {tot tot' : ℚ}
    (h : process_row cols oracle today row tot = .ok (r', tot'))
    (h0 : row_value row = 0) :
    tot' = tot + row_value r' := by
  rcases process_row_cases h with ⟨rfl, rfl⟩ | ⟨s, hold, rfl, rfl⟩
  · rw [h0, add_zero]
  · simp [row_value, getCell_update_row_value]

theorem rowsGet_cons_zero (r : Row) (rs : List Row) : rowsGet (r :: rs) 0 = r := rfl

theorem rowsGet_cons_succ (r : Row) (rs : List Row) (i : Nat) :
    rowsGet (r :: rs) (i + 1) = rowsGet rs i := rfl

theorem rowsGet_map (f : Row → Row) (rows : List Row) (i : Nat)
    (h : i < rows.length) :
    rowsGet (rows.map f) i = f (rowsGet rows i) := by
  induction rows generalizing i with
  | nil => simp at h
  | cons r rs ih =>
    cases i with
    | zero => rfl
    | succ i => exact ih i (by simpa using h)

theorem process_rows_inv {cols : List String} {oracle : Oracle} {today : Date} :
    ∀ {rows rows' : List Row} {tot totF : ℚ},
    process_rows cols oracle today rows tot = .ok (rows', totF) →
    rows'.length = rows.length ∧
    (∀ i, i < rows.length →
      ∃ t t', process_row cols oracle today (rowsGet rows i) t = .ok (rowsGet rows' i, t'))
  | [], rows', tot, totF, h => by
    simp only [process_rows, Except.ok.injEq, Prod.mk.injEq] at h
    exact ⟨by rw [← h.1], fun i hi => by simp at hi⟩
  | r :: rs, rows', tot, totF, h => by
    unfold process_rows at h
    cases h1 : process_row cols oracle today r tot with
    | error e => rw [h1] at h; simp [Bind.bind, Except.bind] at h
    | ok p =>
      rw [h1] at h
      obtain ⟨a, b⟩ := p
      cases h2 : process_rows cols oracle today rs b with
      | error e => simp [h2, Bind.bind, Except.bind] at h
      | ok q =>
        obtain ⟨rs', totF'⟩ := q
        simp only [h2, Bind.bind, Except.bind, Except.ok.injEq, Prod.mk.injEq] at h
        obtain ⟨hrows, htot⟩ := h
        have ihm := process_rows_inv h2
        constructor
        · rw [← hrows]; simp [ihm.1]
        · intro i hi
          cases i with
          | zero =>
            exact ⟨tot, b, by rw [← hrows]; exact h1⟩
          | succ i =>
            rw [← hrows, rowsGet_cons_succ, rowsGet_cons_succ]
            exact ihm.2 i (by simpa using hi)

theorem process_rows_total {cols : List String} {oracle : Oracle} {today : Date} :
    ∀ {rows rows' : List Row} {tot totF : ℚ},
    (∀ r ∈ rows, row_value r = 0) →
    process_rows cols oracle today rows tot = .ok (rows', totF) →
    totF = tot + (rows'.map row_value).sum
  | [], rows', tot, totF, _, h => by
    simp only [process_rows, Except.ok.injEq, Prod.mk.injEq] at h
    rw [← h.1, ← h.2]; simp
  | r :: rs, rows', tot, totF, h0, h => by
    unfold process_rows at h
    cases h1 : process_row cols oracle today r tot with
    | error e => rw [h1] at h; simp [Bind.bind, Except.bind] at h
    | ok p =>
      rw [h1] at h
      obtain ⟨a, b⟩ := p
      cases h2 : process_rows cols oracle today rs b with
      | error e => simp [h2, Bind.bind, Except.bind] at h
      | ok q =>
        obtain ⟨rs', totF'⟩ := q
        simp only [h2, Bind.bind, Except.bind, Except.ok.injEq, Prod.mk.injEq] at h
        obtain ⟨hrows, htot⟩ := h
        have hb : b = tot + row_value a := process_row_total h1 (h0 r (by simp))
        have ih := process_rows_total (fun x hx => h0 x (by simp [hx])) h2
        rw [← htot, ih, hb, ← hrows]
        simp only [List.map_cons, List.sum_cons]
        ring

theorem map_col_inv {t t' : Table} {c : String} {f : Cell → Cell}
    (h : map_col t c f = .ok t') :
    c ∈ t.cols ∧ t'.cols = t.cols ∧
    t'.rows = t.rows.map (fun r => setCell r c (f (getCell r c))) := by
  unfold map_col at h
  split at h
  · next hc =>
    simp only [Except.ok.injEq] at h
    exact ⟨hc, by rw [← h], by rw [← h]⟩
  · simp at h

theorem init_table_rows (t : Table) :
    (init_table t).rows = t.rows.map init_row := by
  simp only [init_table, set_col_const, List.map_map]
  rfl

theorem liquidity_missing_error (input : Table) (oracle : Oracle) (today : Date)
    (h1 : input.rows ≠ []) (h2 : "Type" ∈ input.cols)
    (h3 : "Liquidity" ∉ input.cols) :
    calculate_portfolio input oracle today = .error (.keyError "Liquidity") := by
  have he : input.rows.isEmpty = false := by
    cases hr : input.rows with
    | nil => exact absurd hr h1
    | cons a l => rfl
  unfold calculate_portfolio
  simp [he, map_col, h2, h3, Bind.bind, Except.bind]

theorem calc_written_inv {input : Table} {oracle : Oracle} {today : Date}
    {out : Table} {total : ℚ}
    (h : calculate_portfolio input oracle today = .ok (.written out total)) :
    ∃ tT tL : Table,
      map_col input "Type" fill_str_lower = .ok tT ∧
      map_col tT "Liquidity" fill_str_lower = .ok tL ∧
      process_rows (init_table tL).cols oracle today (init_table tL).rows 0 =
        .ok (out.rows, total) := by
  unfold calculate_portfolio at h
  cases he : input.rows.isEmpty with
  | true => rw [he] at h; simp at h
  | false =>
    rw [he] at h
    simp only [Bool.false_eq_true, if_false] at h
    cases h1 : map_col input "Type" fill_str_lower with
    | error e => rw [h1] at h; simp [Bind.bind, Except.bind] at h
    | ok tT =>
      rw [h1] at h
      simp only [Bind.bind, Except.bind] at h
      cases h2 : map_col tT "Liquidity" fill_str_lower with
      | error e => rw [h2] at h; simp [Bind.bind, Except.bind] at h
      | ok tL =>
        rw [h2] at h
        simp only [Bind.bind, Except.bind] at h
        cases h3 : process_rows (init_table tL).cols oracle today
            (init_table tL).rows 0 with
        | error e => rw [h3] at h; simp [Bind.bind, Except.bind] at h
        | ok p =>
          obtain ⟨rows', tot'⟩ := p
          rw [h3] at h
          simp only [Bind.bind, Except.bind, Except.ok.injEq] at h
          have hTab : (⟨(init_table tL).cols, rows'⟩ : Table) = out ∧ tot' = total := by
            cases h; exact ⟨rfl, rfl⟩
          refine ⟨tT, tL, rfl, h2, ?_⟩
          rw [← hTab.1, ← hTab.2]
          exact h3

theorem C4_run_eval :
    calculate_portfolio C4_input net_fail d0 = .ok (.written C4_output 3) := by
  simp +decide [calculate_portfolio, map_col, set_col_const, init_table,
    process_rows, process_row, row_decision, col_get, row_get_default, getCell,
    setCell, Cell.isna, Cell.toQE, Cell.asStr, Cell.cbE, row_stats, get_price,
    update_row, classify_hold, parse_date, split_dashes, digits_to_nat,
    fill_str_lower, str_lower, init_row, net_fail, d0, C4_input, C4_output,
    Bind.bind, Except.bind]

theorem C5_run_eval :
    calculate_portfolio C5_input net_fail d0 = .ok (.written C5_output 3) := by
  simp +decide [calculate_portfolio, map_col, set_col_const, init_table,
    process_rows, process_row, row_decision, col_get, row_get_default, getCell,
    setCell, Cell.isna, Cell.toQE, Cell.asStr, Cell.cbE, row_stats, get_price,
    update_row, classify_hold, parse_date, split_dashes, digits_to_nat,
    fill_str_lower, str_lower, init_row, net_fail, d0, C5_input, C5_output,
    std_cols, mk_row, Bind.bind, Except.bind]

theorem C6_run_eval :
    calculate_portfolio C6_input net_fail d0 = .ok (.written C6_output 7) := by
  simp +decide [calculate_portfolio, map_col, set_col_const, init_table,
    process_rows, process_row, row_decision, col_get, row_get_default, getCell,
    setCell, Cell.isna, Cell.toQE, Cell.asStr, Cell.cbE, row_stats, get_price,
    update_row, classify_hold, parse_date, split_dashes, digits_to_nat,
    fill_str_lower, str_lower, init_row, net_fail, d0, C6_input, C6_output,
    std_cols, mk_row, Bind.bind, Except.bind]
  norm_num

theorem C10_run_eval :
    calculate_portfolio C10_input net_fail d0 = .ok (.written C10_output 2) := by
  simp +decide [calculate_portfolio, map_col, set_col_const, init_table,
    process_rows, process_row, row_decision, col_get, row_get_default, getCell,
    setCell, Cell.isna, Cell.toQE, Cell.asStr, Cell.cbE, row_stats, get_price,
    update_row, classify_hold, parse_date, split_dashes, digits_to_nat,
    fill_str_lower, str_lower, init_row, net_fail, d0, C10_input, C10_output,
    Bind.bind, Except.bind]

/-! ### The claims -/

/-- C1: the claim says every external-provider failure (network error,
malformed response, missing price field) during price resolution yields a
price of 0 with the row still enriched, and that no exception in the price
or date paths ever terminates the run. The code only catches `KeyError`
(the missing-field case); a network error (`requests.get` raising), a
non-JSON body (`response.json()` raising) and an unparseable price field
(`float()` raising) all propagate uncaught and abort the whole run — in
contradiction with `get_price`'s own docstring ("or 0 if there's an
error"). This theorem shows: the missing-field case does yield 0, while the
other failure modes are raised faults, and a network failure on a one-row
stock portfolio terminates the entire run with no output. -/
theorem C1_provider_failure_bug :
    get_price "AAPL" "stock" (fun _ _ => .missingFld) = .ok (some 0) ∧
    get_price "AAPL" "stock" (fun _ _ => .netError) = .error .requestError ∧
    get_price "AAPL" "stock" (fun _ _ => .notJson) = .error .jsonError ∧
    get_price "BTC" "crypto" (fun _ _ => .badFloat) = .error .valueError ∧
    C1_input.rows ≠ [] ∧
    calculate_portfolio C1_input net_fail d0 = .error .requestError := by
  exact ⟨rfl, rfl, rfl, rfl, by decide, by rfl⟩

/-- C7 counterexample: the claim says a structurally empty input is the
only whole-run-abort condition; but this non-empty input (it merely lacks a
`Liquidity` column) also aborts the whole run, with a raised `KeyError`
instead of an output file. -/
theorem C7_counterexample_nonempty_abort :
    C7_input.rows ≠ [] ∧
    calculate_portfolio C7_input net_fail d0 = .error (.keyError "Liquidity") := by
  exact ⟨by decide, by rfl⟩

/-- C7 as amended: a structurally empty input (zero data rows) makes the run
abort early with a diagnostic and produce no output file, without crashing;
but it is not the only whole-run-abort condition — a non-empty input missing
the `Liquidity` column aborts with a raised `KeyError` before any row is
processed (and, per C1, an uncaught provider exception aborts mid-run). -/
theorem C7_empty_abort_semantics :
    (∀ (input : Table) (oracle : Oracle) (today : Date), input.rows = [] →
      calculate_portfolio input oracle today = .ok .emptyAbort) ∧
    (∀ (input : Table) (oracle : Oracle) (today : Date),
      input.rows ≠ [] → "Type" ∈ input.cols → "Liquidity" ∉ input.cols →
      calculate_portfolio input oracle today = .error (.keyError "Liquidity")) := by
  constructor
  · intro input oracle today h
    have he : input.rows.isEmpty = true := by rw [h]; rfl
    unfold calculate_portfolio
    simp [he]
  · exact fun input oracle today h1 h2 h3 =>
      liquidity_missing_error input oracle today h1 h2 h3

/-- C7 witness: both conjuncts of the amended claim at concrete inputs. -/
theorem C7_empty_abort_semantics_witness :
    calculate_portfolio empty_input net_fail d0 = .ok .emptyAbort ∧
    calculate_portfolio C7_input net_fail d0 = .error (.keyError "Liquidity") :=
  ⟨C7_empty_abort_semantics.1 empty_input net_fail d0 rfl,
   C7_empty_abort_semantics.2 C7_input net_fail d0 (by decide) (by decide) (by decide)⟩

/-- C8: the pipeline is deterministic in its input table, its (mocked)
provider responses and its clock: two runs on identical input, identical
provider oracle and identical "now" produce identical results (in the
embedding the run is a pure function of exactly these three parameters —
the written table and nothing else constitute the output file, so equal
results give byte-identical files under any deterministic serialisation). -/
theorem C8_deterministic_pipeline (i1 i2 : Table) (o1 o2 : Oracle) (d1 d2 : Date)
    (hi : i1 = i2) (ho : o1 = o2) (hd : d1 = d2) :
    calculate_portfolio i1 o1 d1 = calculate_portfolio i2 o2 d2 := by
  rw [hi, ho, hd]

/-- C8 witness: the determinism theorem at a concrete run. -/
theorem C8_deterministic_pipeline_witness :
    calculate_portfolio C6_input net_fail d0 = calculate_portfolio C6_input net_fail d0 :=
  C8_deterministic_pipeline C6_input C6_input net_fail net_fail d0 d0 rfl rfl rfl

/-- C9: a non-empty input whose columns do not include `Liquidity` (here
with the spec-listed `Type` column present, so it is `Liquidity` itself that
is missed) makes the run raise `KeyError('Liquidity')` during column
initialisation — before any row is processed (the result does not depend on
the provider oracle) and with no output written. -/
theorem C9_liquidity_column_required (input : Table) (oracle : Oracle)
    (today : Date) (h1 : input.rows ≠ []) (h2 : "Type" ∈ input.cols)
    (h3 : "Liquidity" ∉ input.cols) :
    calculate_portfolio input oracle today = .error (.keyError "Liquidity") :=
  liquidity_missing_error input oracle today h1 h2 h3

/-- C9 witness: the missing-`Liquidity` abort at a concrete input that has
all documented columns except `Liquidity`. -/
theorem C9_liquidity_column_required_witness :
    C9_input.rows ≠ [] ∧ "Liquidity" ∉ C9_input.cols ∧
    calculate_portfolio C9_input net_fail d0 = .error (.keyError "Liquidity") :=
  ⟨by decide, by decide,
   C9_liquidity_column_required C9_input net_fail d0 (by decide) (by decide) (by decide)⟩

/-- C2: the gain/loss arithmetic of lines 94-109, for a holding with
quantity `q`, cost basis `c` (or an absent/NaN cost basis) and resolved
price: for `cash`, price 1, `value = 1 × q = q`, gain 0 and percentage 0
whatever the cost basis; for `401k`/`hsa`, price 1, `value = q`,
`gain = value − c`, percentage `gain/c × 100` when `c > 0` else `100`; for
the quoted types (`stock`/`etf`/`crypto`, resolved price `p` from the
provider) and for `espp` (resolved price 1), `value = price × q`, and when
`c > 0` `gain = value − c×q` with percentage `gain/(c×q) × 100`, while a
zero or absent cost basis gives `gain = value` and percentage `100`. -/
theorem C2_gain_loss_rules (tk : String) (oracle : Oracle) (q c p : ℚ) :
    (∀ cb : Cell, row_stats tk "cash" q cb oracle = .ok (some ⟨1, q, some 0, 0⟩)) ∧
    (∀ ty, ty = "401k" ∨ ty = "hsa" →
      row_stats tk ty q (.num c) oracle =
        .ok (some ⟨1, q, some (q - c),
          if 0 < c then ((q - c) / c) * 100 else 100⟩)) ∧
    (∀ ty, ty = "stock" ∨ ty = "etf" ∨ ty = "crypto" → oracle tk ty = .price p →
      (0 < c → row_stats tk ty q (.num c) oracle =
        .ok (some ⟨p, p * q, some (p * q - c * q),
          ((p * q - c * q) / (c * q)) * 100⟩)) ∧
      (c = 0 → row_stats tk ty q (.num c) oracle =
        .ok (some ⟨p, p * q, some (p * q), 100⟩)) ∧
      row_stats tk ty q .na oracle = .ok (some ⟨p, p * q, some (p * q), 100⟩)) ∧
    ((0 < c → row_stats tk "espp" q (.num c) oracle =
        .ok (some ⟨1, q, some (q - c * q), ((q - c * q) / (c * q)) * 100⟩)) ∧
     (c = 0 → row_stats tk "espp" q (.num c) oracle =
        .ok (some ⟨1, q, some q, 100⟩))) := by
  refine ⟨fun cb => rfl, ?_, ?_, ?_, ?_⟩
  · rintro ty (rfl | rfl) <;>
      simp [row_stats, Cell.cbE, Bind.bind, Except.bind, one_mul]
  · rintro ty (rfl | rfl | rfl) h <;>
      exact ⟨fun hc => by
          simp [row_stats, get_price, h, Cell.cbE, hc, Bind.bind, Except.bind],
        fun hc => by
          subst hc
          simp [row_stats, get_price, h, Cell.cbE, Bind.bind, Except.bind],
        by simp [row_stats, get_price, h, Cell.cbE, Bind.bind, Except.bind]⟩
  · intro hc
    simp [row_stats, get_price, Cell.cbE, hc, Bind.bind, Except.bind]
  · intro hc
    subst hc
    simp [row_stats, get_price, Cell.cbE, Bind.bind, Except.bind]

/-- C2 witness: the 401k, stock and cash rules at concrete numbers. -/
theorem C2_gain_loss_rules_witness :
    row_stats "VTI" "401k" 5 (.num 100) net_fail =
      .ok (some ⟨1, 5, some (5 - 100),
        if (0 : ℚ) < 100 then ((5 - 100) / 100) * 100 else 100⟩) ∧
    row_stats "AAPL" "stock" 2 (.num 3) (fun _ _ => .price 10) =
      .ok (some ⟨10, 10 * 2, some (10 * 2 - 3 * 2),
        ((10 * 2 - 3 * 2) / (3 * 2)) * 100⟩) ∧
    row_stats "USD" "cash" 7 (.num 100) net_fail = .ok (some ⟨1, 7, some 0, 0⟩) := by
  refine ⟨(C2_gain_loss_rules "VTI" net_fail 5 100 0).2.1 "401k" (.inl rfl), ?_,
    (C2_gain_loss_rules "USD" net_fail 7 100 0).1 (.num 100)⟩
  exact ((C2_gain_loss_rules "AAPL" (fun _ _ => .price 10) 2 3 10).2.2.1
    "stock" (.inl rfl) rfl).1 (by norm_num)

/-- C3: asset types `cash`, `401k`, `hsa`, `espp` resolve to a unit price of
exactly 1, with no external call (`get_price` never reaches the request line
for them, and its result does not depend on the provider oracle); any asset
type outside the seven supported ones makes resolution return the
unsupported marker (`None`), and a row carrying such a type is skipped —
left unchanged, contributing nothing to the total — while the run continues
normally. -/
theorem C3_price_dispatch :
    (∀ (tk ty : String) (oracle : Oracle),
      ty ∈ (["cash", "401k", "hsa", "espp"] : List String) →
      get_price tk ty oracle = .ok (some 1) ∧ get_price_makes_request ty = false) ∧
    (∀ (tk ty : String) (oracle : Oracle),
      ty ∉ (["cash", "401k", "hsa", "espp", "stock", "etf", "crypto"] : List String) →
      get_price tk ty oracle = .ok none) ∧
    (∀ (oracle : Oracle) (today : Date) (tk ty : String) (q : ℚ)
      (cb pd lq : Cell) (total : ℚ),
      ty ∉ (["cash", "401k", "hsa", "espp", "stock", "etf", "crypto"] : List String) →
      process_row std_cols oracle today (mk_row tk ty (.num q) cb pd lq) total =
        .ok (mk_row tk ty (.num q) cb pd lq, total)) := by
  refine ⟨?_, ?_, ?_⟩
  · intro tk ty oracle h
    simp only [List.mem_cons, List.not_mem_nil, or_false, List.mem_singleton] at h
    rcases h with rfl | rfl | rfl | rfl <;> exact ⟨rfl, rfl⟩
  · intro tk ty oracle h
    simp only [List.mem_cons, List.not_mem_nil, or_false, not_or] at h
    obtain ⟨h1, h2, h3, h4, h5, h6, h7⟩ := h
    simp [get_price, h1, h2, h3, h4, h5, h6, h7]
  · intro oracle today tk ty q cb pd lq total h
    simp only [List.mem_cons, List.not_mem_nil, or_false, not_or] at h
    obtain ⟨h1, h2, h3, h4, h5, h6, h7⟩ := h
    simp [process_row, row_decision, col_get, std_cols, mk_row, getCell,
      row_get_default, Cell.isna, Cell.toQE, Cell.asStr, row_stats, get_price,
      h1, h2, h3, h4, h5, h6, h7, Bind.bind, Except.bind]

/-- C3 witness: the fixed-unit rule at `espp`, and the unsupported-type rule
at the asset type `bond`. -/
theorem C3_price_dispatch_witness :
    get_price "X" "espp" net_fail = .ok (some 1) ∧
    get_price_makes_request "espp" = false ∧
    get_price "X" "bond" net_fail = .ok none ∧
    process_row std_cols net_fail d0 (mk_row "X" "bond" (.num 1) .na .na .na) 0 =
      .ok (mk_row "X" "bond" (.num 1) .na .na .na, 0) := by
  have h1 := C3_price_dispatch.1 "X" "espp" net_fail (by decide)
  exact ⟨h1.1, h1.2, C3_price_dispatch.2.1 "X" "bond" net_fail (by decide),
    C3_price_dispatch.2.2 net_fail d0 "X" "bond" 1 .na .na .na 0 (by decide)⟩

/-- C4 counterexample: a holding with no purchase date present — the input
file has no `Purchase Date` column at all — is classified `"Invalid Date"`
(the spec's `InvalidDate`), not `"No Date"` (`NoDate`) as the claim states:
`row.get('Purchase Date', '')` defaults to the empty string, which is not
NaN, and `''` fails to parse. -/
theorem C4_counterexample_missing_date_column :
    "Purchase Date" ∉ C4_input.cols ∧
    calculate_portfolio C4_input net_fail d0 = .ok (.written C4_output 3) ∧
    getCell (rowsGet C4_output.rows 0) "Long-Term Hold" = .str "Invalid Date" := by
  exact ⟨by decide, C4_run_eval, by rfl⟩

/-- C4 as amended: a `Purchase Date` cell that is NaN classifies as
`"No Date"`; when the input has no `Purchase Date` column, the date defaults
to the empty string, which is unparseable and classifies `"Invalid Date"`; a
present but unparseable `YYYY-MM-DD` string classifies `"Invalid Date"`; a
parseable date `d` classifies by `(today − d) / 365 > LONG_TERM_HOLD_YEARS`
(`= 2`), in calendar days with no leap-year correction: `"Green"`
(`LongTerm`) when strictly above, else `"Red"` (`ShortTerm`). The
classification is a pure function of the date cell and `today` by
construction. -/
theorem C4_hold_period_rules (today : Date) :
    (∀ pd : Cell, pd.isna = true → classify_hold pd today = "No Date") ∧
    (∀ s, parse_date s = none → classify_hold (.str s) today = "Invalid Date") ∧
    (∀ s dt, parse_date s = some dt →
      classify_hold (.str s) today =
        if ((to_ordinal today - to_ordinal dt : Int) : ℚ) / 365 >
            LONG_TERM_HOLD_YEARS then "Green" else "Red") ∧
    (∀ (cols : List String) (row : Row), "Purchase Date" ∉ cols →
      row_get_default cols row "Purchase Date" (.str "") = .str "") ∧
    classify_hold (.str "") today = "Invalid Date" := by
  refine ⟨?_, ?_, ?_, ?_, ?_⟩
  · intro pd h
    cases pd with
    | na => simp [classify_hold, Cell.isna]
    | str s => simp [Cell.isna] at h
    | num q => simp [Cell.isna] at h
  · intro s h
    simp [classify_hold, Cell.isna, Cell.asStr, h]
  · intro s dt h
    simp [classify_hold, Cell.isna, Cell.asStr, h]
  · intro cols row h
    simp [row_get_default, h]
  · have hp : parse_date "" = none := by rfl
    simp [classify_hold, Cell.isna, Cell.asStr, hp]

/-- C4 witness: the four classification outcomes at concrete cells and the
fixed date `d0`. -/
theorem C4_hold_period_rules_witness :
    classify_hold .na d0 = "No Date" ∧
    classify_hold (.str "not-a-date") d0 = "Invalid Date" ∧
    classify_hold (.str "2023-10-12") d0 =
      (if ((to_ordinal d0 - to_ordinal ⟨2023, 10, 12⟩ : Int) : ℚ) / 365 >
          LONG_TERM_HOLD_YEARS then "Green" else "Red") ∧
    row_get_default ["Ticker"] [] "Purchase Date" (.str "") = .str "" := by
  exact ⟨(C4_hold_period_rules d0).1 .na rfl,
    (C4_hold_period_rules d0).2.1 "not-a-date" (by decide),
    (C4_hold_period_rules d0).2.2.1 "2023-10-12" ⟨2023, 10, 12⟩ (by decide),
    (C4_hold_period_rules d0).2.2.2.1 ["Ticker"] [] (by decide)⟩

/-- C5 counterexample: a row missing `Quantity` is skipped and excluded from
the total (3 counts only the valid cash row), but it is NOT excluded from
the rows of the output file: the produced file has both rows, the skipped
one carrying its initialised default result cells. -/
theorem C5_counterexample_skipped_row_written :
    getCell (rowsGet C5_input.rows 1) "Quantity" = .na ∧
    calculate_portfolio C5_input net_fail d0 = .ok (.written C5_output 3) ∧
    C5_output.rows.length = 2 ∧
    getCell (rowsGet C5_output.rows 1) "Ticker" = .str "AAPL" := by
  exact ⟨by rfl, C5_run_eval, by rfl, by rfl⟩

/-- C5 as amended: a row with a NaN `Ticker` or `Quantity` is skipped by the
missing-data check, and a row whose `Type` was NaN (lower-cased to the empty
string by the column transform, hence never NaN at the check) is skipped via
the unsupported-asset-type path; in both cases the run continues, the row is
left unchanged and contributes nothing to the accumulated total — but it is
not dropped from the output: the output file keeps exactly one row per input
row. -/
theorem C5_skip_semantics :
    (∀ (cols : List String) (oracle : Oracle) (today : Date) (row : Row)
      (total : ℚ),
      "Ticker" ∈ cols → "Type" ∈ cols → "Quantity" ∈ cols →
      ((getCell row "Ticker").isna = true ∨ (getCell row "Quantity").isna = true) →
      process_row cols oracle today row total = .ok (row, total)) ∧
    (∀ (cols : List String) (oracle : Oracle) (today : Date) (row : Row)
      (total q : ℚ),
      "Ticker" ∈ cols → "Type" ∈ cols → "Quantity" ∈ cols →
      (getCell row "Ticker").isna = false →
      getCell row "Type" = .str "" →
      getCell row "Quantity" = .num q →
      process_row cols oracle today row total = .ok (row, total)) ∧
    (∀ (input : Table) (oracle : Oracle) (today : Date) (out : Table) (total : ℚ),
      calculate_portfolio input oracle today = .ok (.written out total) →
      out.rows.length = input.rows.length) := by
  refine ⟨?_, ?_, ?_⟩
  · intro cols oracle today row total hT hTy hQ h
    rcases h with h | h <;>
      simp [process_row, row_decision, col_get, hT, hTy, hQ, h,
        Bind.bind, Except.bind]
  · intro cols oracle today row total q hT hTy hQ hTik hTyc hQc
    simp [process_row, row_decision, col_get, hT, hTy, hQ, hTik, hTyc, hQc,
      Cell.isna, Cell.toQE, Cell.asStr, row_stats, get_price,
      Bind.bind, Except.bind]
  · intro input oracle today out total h
    obtain ⟨tT, tL, h1, h2, h3⟩ := calc_written_inv h
    have e1 := map_col_inv h1
    have e2 := map_col_inv h2
    have l3 := (process_rows_inv h3).1
    rw [l3, init_table_rows, List.length_map, e2.2.2, List.length_map,
      e1.2.2, List.length_map]

/-- C5 witness: a NaN-quantity row and an empty-type row skipped in place,
and length preservation on the concrete C6 run. -/
theorem C5_skip_semantics_witness :
    process_row std_cols net_fail d0
        (mk_row "AAPL" "stock" .na (.num 100) .na (.str "x")) 5 =
      .ok (mk_row "AAPL" "stock" .na (.num 100) .na (.str "x"), 5) ∧
    process_row std_cols net_fail d0
        (mk_row "AAPL" "" (.num 2) .na .na (.str "x")) 5 =
      .ok (mk_row "AAPL" "" (.num 2) .na .na (.str "x"), 5) ∧
    C6_output.rows.length = C6_input.rows.length := by
  exact ⟨C5_skip_semantics.1 std_cols net_fail d0 _ 5 (by decide) (by decide)
      (by decide) (.inr (by rfl)),
    C5_skip_semantics.2.1 std_cols net_fail d0 _ 5 2 (by decide) (by decide)
      (by decide) (by rfl) (by rfl) (by rfl),
    C5_skip_semantics.2.2 C6_input net_fail d0 C6_output 7 C6_run_eval⟩

/-- C6 counterexample: on this input the computed `total_value` is 7, but
nothing of it reaches the output sink — the written file consists of the
enriched rows only: no cell of it holds 7 and no column of it mentions a
total. The claim that the pipeline "writes this computed totalValue ... to
the output sink" is false: `total_value` is a dead local of the loop. -/
theorem C6_counterexample_total_not_written :
    calculate_portfolio C6_input net_fail d0 = .ok (.written C6_output 7) ∧
    (∀ r ∈ C6_output.rows, ∀ p ∈ r, p.2 ≠ Cell.num 7) ∧
    "totalValue" ∉ C6_output.cols := by
  exact ⟨C6_run_eval, by decide, by decide⟩

/-- C6 as amended: for every run that writes a file, the internal
`total_value` accumulator equals the sum of the `Value` cells over the
written rows (each enriched row contributes exactly its computed value and
each skipped row keeps the initialised value 0), and the written file has
exactly one row per input row; but `total_value` itself is never written to
the output sink. -/
theorem C6_total_is_internal_sum (input : Table) (oracle : Oracle)
    (today : Date) (out : Table) (total : ℚ)
    (h : calculate_portfolio input oracle today = .ok (.written out total)) :
    total = (out.rows.map row_value).sum ∧
    out.rows.length = input.rows.length := by
  obtain ⟨tT, tL, h1, h2, h3⟩ := calc_written_inv h
  have e1 := map_col_inv h1
  have e2 := map_col_inv h2
  constructor
  · have h0 : ∀ r ∈ (init_table tL).rows, row_value r = 0 := by
      rw [init_table_rows]
      intro r hr
      obtain ⟨r0, -, rfl⟩ := List.mem_map.mp hr
      exact row_value_init_row r0
    have ht := process_rows_total h0 h3
    simpa using ht
  · have l3 := (process_rows_inv h3).1
    rw [l3, init_table_rows, List.length_map, e2.2.2, List.length_map,
      e1.2.2, List.length_map]

/-- C6 witness: the sum law and row-count preservation at the concrete
two-cash-rows run (total 7 = 3 + 4). -/
theorem C6_total_is_internal_sum_witness :
    (7 : ℚ) = (C6_output.rows.map row_value).sum ∧
    C6_output.rows.length = C6_input.rows.length :=
  C6_total_is_internal_sum C6_input net_fail d0 C6_output 7 C6_run_eval

/-- C10 counterexample: the claim says every input column other than `Type`
and `Liquidity` passes through to the output unchanged; but an input column
named like a result column is overwritten — here the input's own `Value`
column (42) is reinitialised and rewritten to the computed value 2. -/
theorem C10_counterexample_value_column_overwritten :
    "Value" ∈ C10_input.cols ∧ "Value" ≠ "Type" ∧ "Value" ≠ "Liquidity" ∧
    getCell (rowsGet C10_input.rows 0) "Value" = .num 42 ∧
    calculate_portfolio C10_input net_fail d0 = .ok (.written C10_output 2) ∧
    getCell (rowsGet C10_output.rows 0) "Value" = .num 2 := by
  exact ⟨by decide, by decide, by decide, by rfl, C10_run_eval, by rfl⟩

/-- C10 as amended: in every run that writes a file, and for every row
(including skipped ones), each column other than `Type`, `Liquidity` and the
five result columns (`Current Price`, `Value`, `Gain/Loss`, `% Gain/Loss`,
`Long-Term Hold`) passes through with its cell unchanged, while the `Type`
and `Liquidity` cells are rewritten by the fillna-to-empty-string and
lower-casing transform (the five result columns are overwritten). -/
theorem C10_frame_rules (input : Table) (oracle : Oracle) (today : Date)
    (out : Table) (total : ℚ)
    (h : calculate_portfolio input oracle today = .ok (.written out total)) :
    ∀ i, i < input.rows.length →
      (∀ c, c ∉ enrich_cols → c ≠ "Type" → c ≠ "Liquidity" →
        getCell (rowsGet out.rows i) c = getCell (rowsGet input.rows i) c) ∧
      getCell (rowsGet out.rows i) "Type" =
        fill_str_lower (getCell (rowsGet input.rows i) "Type") ∧
      getCell (rowsGet out.rows i) "Liquidity" =
        fill_str_lower (getCell (rowsGet input.rows i) "Liquidity") := by
  obtain ⟨tT, tL, h1, h2, h3⟩ := calc_written_inv h
  have e1 := map_col_inv h1
  have e2 := map_col_inv h2
  intro i hi
  have lT : tT.rows.length = input.rows.length := by
    rw [e1.2.2, List.length_map]
  have lL : tL.rows.length = tT.rows.length := by
    rw [e2.2.2, List.length_map]
  have l3 : (init_table tL).rows.length = tL.rows.length := by
    rw [init_table_rows, List.length_map]
  have hi3 : i < (init_table tL).rows.length := by omega
  obtain ⟨t, t', hp⟩ := (process_rows_inv h3).2 i hi3
  have hIR : rowsGet (init_table tL).rows i = init_row (rowsGet tL.rows i) := by
    rw [init_table_rows]
    exact rowsGet_map _ _ i (by omega)
  have hLrow : rowsGet tL.rows i =
      setCell (rowsGet tT.rows i) "Liquidity"
        (fill_str_lower (getCell (rowsGet tT.rows i) "Liquidity")) := by
    rw [e2.2.2]
    exact rowsGet_map _ _ i (by omega)
  have hTrow : rowsGet tT.rows i =
      setCell (rowsGet input.rows i) "Type"
        (fill_str_lower (getCell (rowsGet input.rows i) "Type")) := by
    rw [e1.2.2]
    exact rowsGet_map _ _ i (by omega)
  refine ⟨?_, ?_, ?_⟩
  · intro c hcE hcT hcL
    rw [process_row_frame hp hcE, hIR, getCell_init_row_of_not_mem _ hcE,
      hLrow, getCell_setCell_ne _ _ _ _ hcL, hTrow,
      getCell_setCell_ne _ _ _ _ hcT]
  · have hT_not : "Type" ∉ enrich_cols := by decide
    rw [process_row_frame hp hT_not, hIR, getCell_init_row_of_not_mem _ hT_not,
      hLrow, getCell_setCell_ne _ _ _ _ (by decide), hTrow,
      getCell_setCell_self]
  · have hL_not : "Liquidity" ∉ enrich_cols := by decide
    rw [process_row_frame hp hL_not, hIR, getCell_init_row_of_not_mem _ hL_not,
      hLrow, getCell_setCell_self, hTrow,
      getCell_setCell_ne _ _ _ _ (by decide)]

/-- C10 witness: the frame property at the concrete C6 run — the `Ticker`
cell passes through unchanged and the `Type` cell is exactly the transform
of the input's. -/
theorem C10_frame_rules_witness :
    getCell (rowsGet C6_output.rows 0) "Ticker" =
      getCell (rowsGet C6_input.rows 0) "Ticker" ∧
    getCell (rowsGet C6_output.rows 0) "Type" =
      fill_str_lower (getCell (rowsGet C6_input.rows 0) "Type") := by
  have h := C10_frame_rules C6_input net_fail d0 C6_output 7 C6_run_eval 0
    (by decide)
  exact ⟨h.1 "Ticker" (by decide) (by decide) (by decide), h.2.1⟩

end Portfolio
